import Mathlib

/-!
Verification of the feast permission core (`sdk/python/feast/permissions/permission.py`
and its collaborators) against its natural-language specification. The Python data
model and operations are shallowly embedded as executable Lean definitions and the
spec sentences are settled as theorems about them.
-/

namespace Feast

/-- `AuthzedAction` enum from `permission.py`: the type of action being secured. -/
inductive AuthzedAction where
  | ALL
  | CREATE
  | READ
  | UPDATE
  | DELETE
  | QUERY
  | QUERY_ONLINE
  | QUERY_OFFLINE
  | WRITE
  | WRITE_ONLINE
  | WRITE_OFFLINE
deriving DecidableEq, Repr

/-- Modelled from the spec: the `DecisionStrategy` enum lives in
`feast/permissions/decision.py`, which is not among the provided sources; §3 of the
spec fixes its members as UNANIMOUS and AFFIRMATIVE. -/
inductive DecisionStrategy where
  | UNANIMOUS
  | AFFIRMATIVE
deriving DecidableEq, Repr

/-- Modelled from the spec: the `FeastObject` union (`feast/feast_object.py` is not
among the provided sources); §3 describes it as a fixed closed set of managed
resource kinds. The claims only need that it is a closed enumeration with decidable
equality, not its exact member list. -/
inductive FeastType where
  | featureView
  | onDemandFeatureView
  | batchFeatureView
  | streamFeatureView
  | entity
  | featureService
  | dataSource
  | savedDataset
  | validationReference
  | permissionType
deriving DecidableEq, Repr

/-- A Python runtime value appearing as a tag value: either a string or some
non-string object (identified by a tag so distinct non-strings stay distinct). -/
inductive PyVal where
  | str (s : String)
  | nonStr (id : Nat)
deriving DecidableEq, Repr

/-- A Python class object passed in the `types` argument of `Permission.__init__`:
either one of the managed `FeastObject` member types or some unrelated class. -/
inductive PyClass where
  | managed (t : FeastType)
  | unmanaged (id : Nat)
deriving DecidableEq, Repr

def PyClass.asFeast : PyClass → Option FeastType
  | PyClass.managed t => some t
  | PyClass.unmanaged _ => none

def PyClass.isManaged (c : PyClass) : Bool :=
  c.asFeast.isSome

/-- The `name` attribute of a resource object as seen by duck-typed probing:
missing, present but not a string, or a string. -/
inductive NameAttr where
  | absent
  | nonStr (id : Nat)
  | str (s : String)
deriving DecidableEq, Repr

/-- The `tags` attribute of a resource object as seen by duck-typed probing:
missing, present but not a dict, or a dict (association list, unique keys). -/
inductive TagsAttr where
  | absent
  | nonDict (id : Nat)
  | dict (m : List (String × PyVal))
deriving DecidableEq, Repr

/-- A Python object handed to `match_resource`: its dynamic type is either one of
the managed types (`rtype = some t`) or not managed at all (`rtype = none`), and it
carries the duck-typed `name` and `tags` attributes. The absent resource (`None`)
is modelled as `Option Resource`. -/
structure Resource where
  rtype : Option FeastType
  name : NameAttr
  tags : TagsAttr
deriving DecidableEq, Repr

/-- A policy evaluator (`Policy.validate`): a pure predicate of the current
principal and the requested actions, per §4.2 of the spec. -/
def Policy : Type := Option String → List AuthzedAction → Bool

/-- The built-in `AllowAll` policy: always allows. -/
def AllowAll : Policy := fun _ _ => true

/-- Argument position of `decision_strategy` in `Permission.__init__`: Python is
dynamically typed, so the caller may pass a value that is not a member of the
`DecisionStrategy` enum; the constructor guards against that. -/
inductive DSArg where
  | mem (d : DecisionStrategy)
  | notMem (id : Nat)

/-- The `Permission` value object (fields as stored by `Permission.__init__` after
validation and normalization). -/
structure Permission where
  name : String
  types : List FeastType
  with_subclasses : Bool
  name_pattern : Option String
  required_tags : Option (List (String × PyVal))
  actions : List AuthzedAction
  policies : List Policy
  decision_strategy : DecisionStrategy

/-! ### Regex matching

`match_resource` filters names with `re.fullmatch(self.name_pattern, resource.name)`.
We embed a regex core (literal characters, the `.` wildcard and the postfix `*`
repetition, the fragment the claims exercise) with Brzozowski-derivative full-match
semantics: the whole string must be consumed, which is exactly what distinguishes
`re.fullmatch` from substring search. -/

inductive Regex where
  | emp
  | eps
  | chr (c : Char)
  | anyChr
  | cat (a b : Regex)
  | alt (a b : Regex)
  | star (a : Regex)
deriving DecidableEq, Repr

def Regex.nullable : Regex → Bool
  | Regex.emp => false
  | Regex.eps => true
  | Regex.chr _ => false
  | Regex.anyChr => false
  | Regex.cat a b => a.nullable && b.nullable
  | Regex.alt a b => a.nullable || b.nullable
  | Regex.star _ => true

def Regex.deriv : Regex → Char → Regex
  | Regex.emp, _ => Regex.emp
  | Regex.eps, _ => Regex.emp
  | Regex.chr c, x => if x = c then Regex.eps else Regex.emp
  | Regex.anyChr, _ => Regex.eps
  | Regex.cat a b, x =>
      if a.nullable then Regex.alt (Regex.cat (a.deriv x) b) (b.deriv x)
      else Regex.cat (a.deriv x) b
  | Regex.alt a b, x => Regex.alt (a.deriv x) (b.deriv x)
  | Regex.star a, x => Regex.cat (a.deriv x) (Regex.star a)

def Regex.matchChars : Regex → List Char → Bool
  | r, [] => r.nullable
  | r, c :: cs => (r.deriv c).matchChars cs

def mkAtom (c : Char) : Regex :=
  if c = '.' then Regex.anyChr else Regex.chr c

/-- Turns a pattern string (as a char list) into a sequence of regex atoms,
applying postfix `*` to the preceding atom. -/
def atomsOf : List Char → List Regex
  | [] => []
  | [c] => [mkAtom c]
  | c :: d :: rest =>
      if d = '*' then Regex.star (mkAtom c) :: atomsOf rest
      else mkAtom c :: atomsOf (d :: rest)

def compilePattern (pat : String) : Regex :=
  (atomsOf pat.data).foldr Regex.cat Regex.eps

/-- Embedding of `re.fullmatch(pat, s)` coerced to bool: the pattern must match
the entire string. -/
def re_fullmatch (pat : String) (s : String) : Bool :=
  (compilePattern pat).matchChars s.data

/-! ### Normalization helpers (`permission.py` lines 211-223) -/

/-- Python `str.strip()`: drop leading and trailing whitespace. (Defined over the
char list so that it evaluates by kernel reduction.) -/
def pyStrip (s : String) : String :=
  String.mk (((s.data.dropWhile Char.isWhitespace).reverse.dropWhile Char.isWhitespace).reverse)

/-- `_normalize_name_pattern`: strip surrounding whitespace; `None` stays `None`. -/
def normalize_name_pattern : Option String → Option String
  | some s => some (pyStrip s)
  | none => none

def trimTagVal : PyVal → PyVal
  | PyVal.str s => PyVal.str (pyStrip s)
  | PyVal.nonStr i => PyVal.nonStr i

/-- `_normalize_required_tags`: on a truthy (non-`None`, non-empty) dict, trim every
key and every string value, leaving non-string values untouched; a falsy input
(`None` or the empty dict) yields `None`. -/
def normalize_required_tags : Option (List (String × PyVal)) → Option (List (String × PyVal))
  | some ts =>
      if ts.isEmpty then none
      else some (ts.map (fun kv => (pyStrip kv.1, trimTagVal kv.2)))
  | none => none

/-! ### Construction (`Permission.__init__`, lines 63-94) -/

/-- Embedding of `Permission.__init__` with the `types`, `actions` and `policies`
arguments in their list form. Each `raise ValueError` becomes `Except.error`. -/
def mkPermission (name : String) (types : List PyClass) (with_subclasses : Bool)
    (name_pattern : Option String) (required_tags : Option (List (String × PyVal)))
    (actions : List AuthzedAction) (policies : List Policy)
    (decision_strategy : DSArg) : Except String Permission :=
  if types.isEmpty then
    Except.error "The list types must be non-empty."
  else if !types.all PyClass.isManaged then
    Except.error "is not one of the managed types"
  else if actions.isEmpty then
    Except.error "The list actions must be non-empty."
  else if policies.isEmpty then
    Except.error "The list policies must be non-empty."
  else
    match decision_strategy with
    | DSArg.notMem _ =>
        Except.error "The decision_strategy must be one of the allowed values."
    | DSArg.mem ds =>
        Except.ok
          { name := name
            types := types.filterMap PyClass.asFeast
            with_subclasses := with_subclasses
            name_pattern := normalize_name_pattern name_pattern
            required_tags := normalize_required_tags required_tags
            actions := actions
            policies := policies
            decision_strategy := ds }

/-! ### Matching (`permission.py` lines 141-200) -/

/-- `is_of_expected_type(resource)`: is the dynamic type one of the managed types? -/
def is_of_expected_type (r : Resource) : Bool :=
  r.rtype.isSome

/-- `isinstance(resource, tuple(self.types))`. -/
def instanceOfAny (r : Resource) (ts : List FeastType) : Bool :=
  match r.rtype with
  | some t => ts.contains t
  | none => false

/-- The `name_pattern` filter block of `match_resource` (lines 160-174): rejects only
when the resource has a string `name` that fails `re.fullmatch`; a missing or
non-string `name` is only warned about and falls through. -/
def nameFilterOk (p : Permission) (r : Resource) : Bool :=
  match p.name_pattern with
  | none => true
  | some pat =>
      match r.name with
      | NameAttr.str s => re_fullmatch pat s
      | NameAttr.nonStr _ => true
      | NameAttr.absent => true

/-- The `required_tags` filter block of `match_resource` (lines 176-192): skipped
when `self.required_tags` is falsy; rejects when the resource has a `tags` dict in
which some required key has a value different from the required one; a missing or
non-dict `tags` attribute is only warned about and falls through. -/
def tagsFilterOk (p : Permission) (r : Resource) : Bool :=
  match p.required_tags with
  | none => true
  | some ts =>
      if ts.isEmpty then true
      else
        match r.tags with
        | TagsAttr.dict m =>
            ts.all (fun kv => m.lookup kv.1 == some kv.2)
        | TagsAttr.nonDict _ => true
        | TagsAttr.absent => true

/-- Embedding of `Permission.match_resource` (lines 141-194). -/
def matchResource (p : Permission) (resource : Option Resource) : Bool :=
  match resource with
  | none => false
  | some r =>
      if !is_of_expected_type r then false
      else if !instanceOfAny r p.types then false
      else nameFilterOk p r && tagsFilterOk p r

/-- Embedding of `Permission.match_actions` (lines 196-200). -/
def match_actions (p : Permission) (actions : List AuthzedAction) : Bool :=
  if AuthzedAction.ALL ∈ p.actions then true
  else actions.all (fun a => a ∈ p.actions)

/-! ### Global decision strategy (`permission.py` lines 96-107)

The mutable class attribute `Permission._global_decision_strategy` is embedded by
explicit state passing: the state is the current strategy value. -/

/-- Initial value of `Permission._global_decision_strategy` (line 96). -/
def global_decision_strategy_init : DecisionStrategy :=
  DecisionStrategy.UNANIMOUS

/-- `Permission.set_global_decision_strategy`: replaces the stored value. -/
def set_global_decision_strategy (s : DecisionStrategy) (_st : DecisionStrategy) :
    DecisionStrategy :=
  s

/-- `Permission.get_global_decision_strategy`: reads the stored value. -/
def get_global_decision_strategy (st : DecisionStrategy) : DecisionStrategy :=
  st

/-! ### Security manager (spec §4.3)

`feast/permissions/security_manager.py` is not among the provided sources (only its
unit test is), so the façade is modelled from the spec. -/

/-- Modelled from the spec: the Security Manager holds the current principal and
the list of configured Permissions (§3, §4.3); `security_manager.py` is missing
from the sources. -/
structure SecurityManager where
  current_user : Option String
  permissions : List Permission

/-- Modelled from the spec: the decision aggregator (§2, §4.1) — UNANIMOUS requires
every outcome to allow, AFFIRMATIVE at least one. -/
def evalDecision (strat : DecisionStrategy) (results : List Bool) : Bool :=
  match strat with
  | DecisionStrategy.UNANIMOUS => results.all (fun b => b)
  | DecisionStrategy.AFFIRMATIVE => results.any (fun b => b)

/-- Modelled from the spec: one Permission's own allow/deny — its policies are
evaluated against the principal and aggregated with its decision strategy (§4.1). -/
def permissionDecision (sm : SecurityManager) (p : Permission) (acts : List AuthzedAction) : Bool :=
  evalDecision p.decision_strategy (p.policies.map (fun pol => pol sm.current_user acts))

/-- Modelled from the spec: the aggregated decision for one resource (§4.3) — the
Permissions whose `match_resource` and `match_actions` both succeed are collected;
an empty set denies; otherwise the per-Permission outcomes are combined with the
global decision strategy. -/
def resourceDecision (sm : SecurityManager) (globalStrat : DecisionStrategy)
    (r : Option Resource) (acts : List AuthzedAction) : Bool :=
  let matched := sm.permissions.filter (fun p => matchResource p r && match_actions p acts)
  if matched.isEmpty then false
  else evalDecision globalStrat (matched.map (fun p => permissionDecision sm p acts))

/-- Modelled from the spec: the error taxonomy visible to `assert_permissions`
callers (§7) — a permission-denied error, distinct from the not-found error used
for absent resources. -/
inductive SMError where
  | permissionDeniedErr (msg : String)
  | notFoundErr (msg : String)
deriving DecidableEq, Repr

/-- Modelled from the spec: `assert_permissions(resource, actions)` (§4.3) — same
matching/aggregation logic for a single resource; on success returns the resource
unchanged, on failure raises a permission-denied error. -/
def assert_permissions (sm : SecurityManager) (globalStrat : DecisionStrategy)
    (r : Resource) (acts : List AuthzedAction) : Except SMError Resource :=
  if resourceDecision sm globalStrat (some r) acts then Except.ok r
  else Except.error (SMError.permissionDeniedErr "Permission denied")

/-! ### Sample values used by witnesses -/

/-- A permission granting only READ on feature views, with an always-allow policy. -/
def permREAD : Permission :=
  { name := "reader"
    types := [FeastType.featureView]
    with_subclasses := false
    name_pattern := none
    required_tags := none
    actions := [AuthzedAction.READ]
    policies := [AllowAll]
    decision_strategy := DecisionStrategy.UNANIMOUS }

/-- A feature-view resource named "fv1" with one tag. -/
def resFV : Resource :=
  { rtype := some FeastType.featureView
    name := NameAttr.str "fv1"
    tags := TagsAttr.dict [("team", PyVal.str "x")] }

/-- A permission restricted to READ on feature views whose name must fully match
the pattern "abc". -/
def permNamed : Permission :=
  { permREAD with name_pattern := some "abc" }

/-- A permission requiring the tag "team" to have the exact value "x". -/
def permTagged : Permission :=
  { permREAD with required_tags := some [("team", PyVal.str "x")] }

/-- A permission with both a name-pattern filter and a required-tags filter. -/
def permBoth : Permission :=
  { permREAD with
    name_pattern := some "abc"
    required_tags := some [("team", PyVal.str "x")] }

/-- The permission value produced by a plain valid construction with no filters. -/
def permOk : Permission :=
  { name := "n"
    types := [FeastType.featureView]
    with_subclasses := false
    name_pattern := none
    required_tags := none
    actions := [AuthzedAction.READ]
    policies := [AllowAll]
    decision_strategy := DecisionStrategy.UNANIMOUS }

/-- The permission value produced by a construction whose name pattern and
required tags carry surrounding whitespace. -/
def pNorm : Permission :=
  { name := "n"
    types := [FeastType.featureView]
    with_subclasses := false
    name_pattern := some "ab"
    required_tags := some [("k", PyVal.str "v"), ("j", PyVal.nonStr 0)]
    actions := [AuthzedAction.READ]
    policies := [AllowAll]
    decision_strategy := DecisionStrategy.UNANIMOUS }

/-- A security manager with one always-allow READ permission. -/
def smAllow : SecurityManager :=
  { current_user := some "u", permissions := [permREAD] }

/-- A security manager with no permissions configured. -/
def smEmpty : SecurityManager :=
  { current_user := none, permissions := [] }

/-! ### Theorems settling the claims -/

/-- Claim C1: `match_actions` returns true unconditionally when the Permission's
own actions contain ALL; otherwise it returns true iff every requested action is
contained in the granted actions (requested subset of granted); in particular a
Permission with actions `[READ]` does not match a requested list containing
WRITE. -/
theorem match_actions_subset (p : Permission) (acts : List AuthzedAction) :
    (AuthzedAction.ALL ∈ p.actions → match_actions p acts = true) ∧
    (AuthzedAction.ALL ∉ p.actions →
      (match_actions p acts = true ↔ ∀ a ∈ acts, a ∈ p.actions)) ∧
    (p.actions = [AuthzedAction.READ] → AuthzedAction.WRITE ∈ acts →
      match_actions p acts = false) := by
  refine ⟨?_, ?_, ?_⟩
  · intro h
    simp [match_actions, h]
  · intro h
    simp [match_actions, h]
  · intro h hw
    simp [match_actions, h]
    exact ⟨AuthzedAction.WRITE, hw, by decide⟩

/-- Witness for C1: the READ-only permission evaluated at a WRITE request. -/
theorem match_actions_subset_witness :
    AuthzedAction.ALL ∉ permREAD.actions ∧
    (match_actions permREAD [AuthzedAction.WRITE] = true ↔
      ∀ a ∈ [AuthzedAction.WRITE], a ∈ permREAD.actions) ∧
    match_actions permREAD [AuthzedAction.WRITE] = false :=
  ⟨by decide,
   (match_actions_subset permREAD [AuthzedAction.WRITE]).2.1 (by decide),
   (match_actions_subset permREAD [AuthzedAction.WRITE]).2.2 (by decide) (by decide)⟩

/-- Claim C10: an empty requested action list satisfies the action filter of any
Permission (vacuous subset), even without ALL among the granted actions. -/
theorem match_actions_empty_true (p : Permission) : match_actions p [] = true := by
  simp [match_actions]

/-- Claim C9: the global decision strategy is UNANIMOUS before any set, and after
`set_global_decision_strategy s` a subsequent get returns `s`. -/
theorem global_strategy_roundtrip :
    get_global_decision_strategy global_decision_strategy_init = DecisionStrategy.UNANIMOUS ∧
    ∀ (s st : DecisionStrategy),
      get_global_decision_strategy (set_global_decision_strategy s st) = s :=
  ⟨rfl, fun _ _ => rfl⟩

/-- Claim C4: `match_resource` returns false (it does not raise) when the resource
is absent, when it is not an instance of any managed type, and when its dynamic
type is not among the Permission's types. -/
theorem match_resource_absent_false (p : Permission) (r : Resource) :
    matchResource p none = false ∧
    (r.rtype = none → matchResource p (some r) = false) ∧
    (∀ t, r.rtype = some t → t ∉ p.types → matchResource p (some r) = false) := by
  refine ⟨rfl, ?_, ?_⟩
  · intro h
    simp [matchResource, is_of_expected_type, h]
  · intro t ht hmem
    simp [matchResource, is_of_expected_type, instanceOfAny, ht, hmem]

/-- Witness for C4: the READ permission on an absent resource, an unmanaged
resource, and an entity not among its types. -/
theorem match_resource_absent_false_witness :
    matchResource permREAD none = false ∧
    matchResource permREAD
      (some { rtype := none, name := NameAttr.absent, tags := TagsAttr.absent }) = false ∧
    matchResource permREAD
      (some { rtype := some FeastType.entity, name := NameAttr.absent,
              tags := TagsAttr.absent }) = false :=
  ⟨(match_resource_absent_false permREAD resFV).1,
   (match_resource_absent_false permREAD _).2.1 rfl,
   (match_resource_absent_false permREAD _).2.2 FeastType.entity rfl (by decide)⟩

/-- Claim C5: with a name pattern set and a resource of a matching managed type
exposing a string name, `match_resource` succeeds exactly when the pattern matches
the entire name (full-string regex match); in particular the pattern "abc" matches
"abc" but not "xabcx". -/
theorem name_pattern_fullmatch (p : Permission) (pat s : String) (r : Resource)
    (t : FeastType) (hpat : p.name_pattern = some pat) (htags : p.required_tags = none)
    (hrt : r.rtype = some t) (hmem : t ∈ p.types) (hname : r.name = NameAttr.str s) :
    matchResource p (some r) = re_fullmatch pat s ∧
    re_fullmatch "abc" "abc" = true ∧
    re_fullmatch "abc" "xabcx" = false := by
  refine ⟨?_, by decide, by decide⟩
  simp [matchResource, is_of_expected_type, instanceOfAny, nameFilterOk, tagsFilterOk,
    hpat, htags, hrt, hmem, hname]

/-- Witness for C5: pattern "abc" against the name "xabcx". -/
theorem name_pattern_fullmatch_witness :
    matchResource permNamed
      (some { rtype := some FeastType.featureView, name := NameAttr.str "xabcx",
              tags := TagsAttr.absent })
      = re_fullmatch "abc" "xabcx" ∧
    re_fullmatch "abc" "abc" = true ∧
    re_fullmatch "abc" "xabcx" = false :=
  name_pattern_fullmatch permNamed "abc" "xabcx" _ FeastType.featureView
    rfl rfl rfl (by decide) rfl

/-- Claim C6: with required tags set and a resource of a matching managed type
whose tags attribute is a mapping, `match_resource` returns false whenever some
required key's value is not exactly equal to the required value (a missing key
included), and the tag filter passes exactly when every required key matches. -/
theorem required_tags_exact (p : Permission) (r : Resource) (t : FeastType)
    (ts m : List (String × PyVal))
    (hrt : p.required_tags = some ts) (hne : ts ≠ [])
    (hty : r.rtype = some t) (hmem : t ∈ p.types) (htags : r.tags = TagsAttr.dict m) :
    (∀ k v, (k, v) ∈ ts → m.lookup k ≠ some v → matchResource p (some r) = false) ∧
    (tagsFilterOk p r = true ↔ ∀ k v, (k, v) ∈ ts → m.lookup k = some v) := by
  have hfilter : tagsFilterOk p r = ts.all (fun kv => m.lookup kv.1 == some kv.2) := by
    simp [tagsFilterOk, hrt, htags, hne]
  constructor
  · intro k v hkv hlk
    have hfail : tagsFilterOk p r = false := by
      rw [hfilter, List.all_eq_false]
      exact ⟨(k, v), hkv, by simp [hlk]⟩
    simp [matchResource, is_of_expected_type, instanceOfAny, hty, hmem, hfail]
  · rw [hfilter]
    simp [List.all_eq_true]

/-- Witness for C6: `required_tags = [("team","x")]` rejects a resource whose team
tag has value "y", and the filter on a matching resource is exactly the per-key
lookup condition. -/
theorem required_tags_exact_witness :
    matchResource permTagged
      (some { rtype := some FeastType.featureView, name := NameAttr.absent,
              tags := TagsAttr.dict [("team", PyVal.str "y")] }) = false ∧
    (tagsFilterOk permTagged resFV = true ↔
      ∀ k v, (k, v) ∈ [("team", PyVal.str "x")] →
        List.lookup k [("team", PyVal.str "x")] = some v) :=
  ⟨(required_tags_exact permTagged _ FeastType.featureView
      [("team", PyVal.str "x")] [("team", PyVal.str "y")]
      rfl (by decide) rfl (by decide) rfl).1
      "team" (PyVal.str "x") (by decide) (by decide),
   (required_tags_exact permTagged resFV FeastType.featureView
      [("team", PyVal.str "x")] [("team", PyVal.str "x")]
      rfl (by decide) rfl (by decide) rfl).2⟩

/-- Claim C7: when a filter is set but the resource lacks the corresponding
attribute (or it has an unexpected type), `match_resource` does not reject on
account of that filter: the name filter passes on a missing or non-string name,
the tags filter passes on a missing or non-dict tags attribute, and a resource of
a matching type failing both probes matches outright. -/
theorem missing_attr_passes (p : Permission) (r : Resource) (t : FeastType)
    (hty : r.rtype = some t) (hmem : t ∈ p.types) :
    (∀ pat, p.name_pattern = some pat →
      (r.name = NameAttr.absent ∨ (∃ i, r.name = NameAttr.nonStr i)) →
      nameFilterOk p r = true) ∧
    ((r.tags = TagsAttr.absent ∨ (∃ i, r.tags = TagsAttr.nonDict i)) →
      tagsFilterOk p r = true) ∧
    ((r.name = NameAttr.absent ∨ (∃ i, r.name = NameAttr.nonStr i)) →
      (r.tags = TagsAttr.absent ∨ (∃ i, r.tags = TagsAttr.nonDict i)) →
      matchResource p (some r) = true) := by
  have hname : ∀ pat, p.name_pattern = some pat →
      (r.name = NameAttr.absent ∨ (∃ i, r.name = NameAttr.nonStr i)) →
      nameFilterOk p r = true := by
    intro pat hpat h
    rcases h with h | ⟨i, h⟩ <;> simp [nameFilterOk, hpat, h]
  have htags : (r.tags = TagsAttr.absent ∨ (∃ i, r.tags = TagsAttr.nonDict i)) →
      tagsFilterOk p r = true := by
    intro h
    cases hq : p.required_tags with
    | none => simp [tagsFilterOk, hq]
    | some ts => rcases h with h | ⟨i, h⟩ <;> simp [tagsFilterOk, hq, h]
  refine ⟨hname, htags, ?_⟩
  intro hn ht
  have hnm : nameFilterOk p r = true := by
    cases hq : p.name_pattern with
    | none => simp [nameFilterOk, hq]
    | some pat => exact hname pat hq hn
  simp [matchResource, is_of_expected_type, instanceOfAny, hty, hmem, hnm, htags ht]

/-- Witness for C7: a permission with both filters set matches a feature view
lacking both the name and the tags attribute. -/
theorem missing_attr_passes_witness :
    matchResource permBoth
      (some { rtype := some FeastType.featureView, name := NameAttr.absent,
              tags := TagsAttr.absent }) = true :=
  (missing_attr_passes permBoth _ FeastType.featureView rfl (by decide)).2.2
    (Or.inl rfl) (Or.inl rfl)

/-- Any non-empty list of all-managed classes extracts to a non-empty list of
managed types. -/
theorem filterMap_asFeast_ne_nil (types : List PyClass)
    (h : types.all PyClass.isManaged = true) (hne : types ≠ []) :
    types.filterMap PyClass.asFeast ≠ [] := by
  cases types with
  | nil => exact absurd rfl hne
  | cons c cs =>
      simp only [List.all_cons, Bool.and_eq_true] at h
      cases c with
      | managed t => simp [List.filterMap_cons, PyClass.asFeast]
      | unmanaged i => simp [PyClass.isManaged, PyClass.asFeast] at h

/-- Claim C3: Permission construction fails when `types` is empty, when some
element of `types` is not a managed resource type, when `actions` is empty, when
`policies` is empty, or when the decision strategy is not a recognized enum
member; and a successful construction has non-empty types, actions and
policies. -/
theorem mkPermission_validation (name : String) (types : List PyClass) (ws : Bool)
    (np : Option String) (rt : Option (List (String × PyVal)))
    (acts : List AuthzedAction) (pols : List Policy) (ds : DSArg) :
    (types = [] → (mkPermission name types ws np rt acts pols ds).isOk = false) ∧
    ((∃ c ∈ types, c.isManaged = false) →
      (mkPermission name types ws np rt acts pols ds).isOk = false) ∧
    (acts = [] → (mkPermission name types ws np rt acts pols ds).isOk = false) ∧
    (pols = [] → (mkPermission name types ws np rt acts pols ds).isOk = false) ∧
    (∀ i, ds = DSArg.notMem i →
      (mkPermission name types ws np rt acts pols ds).isOk = false) ∧
    (∀ p, mkPermission name types ws np rt acts pols ds = Except.ok p →
      types ≠ [] ∧ acts ≠ [] ∧ pols ≠ [] ∧
      p.types ≠ [] ∧ p.actions ≠ [] ∧ p.policies ≠ []) := by
  refine ⟨?_, ?_, ?_, ?_, ?_, ?_⟩
  · intro h
    subst h
    rfl
  · rintro ⟨c, hc, hcm⟩
    have h2 : types.all PyClass.isManaged = false := by
      rw [List.all_eq_false]
      exact ⟨c, hc, by simp [hcm]⟩
    cases types with
    | nil => exact absurd hc (List.not_mem_nil c)
    | cons a as => simp [mkPermission, h2, Except.isOk, Except.toBool]
  · intro h
    subst h
    unfold mkPermission
    repeat' split
    all_goals first | rfl | simp_all
  · intro h
    subst h
    unfold mkPermission
    repeat' split
    all_goals first | rfl | simp_all
  · intro i h
    subst h
    unfold mkPermission
    repeat' split
    all_goals first | rfl | simp_all
  · intro p h
    unfold mkPermission at h
    repeat' split at h
    all_goals try exact Except.noConfusion h
    injection h with h2
    subst h2
    rename_i h1 hall hacts hpols _ _
    have h1' : types ≠ [] := by simpa using h1
    have hall' : types.all PyClass.isManaged = true := by simpa using hall
    have hacts' : acts ≠ [] := by simpa using hacts
    have hpols' : pols ≠ [] := by simpa using hpols
    exact ⟨h1', hacts', hpols', filterMap_asFeast_ne_nil types hall' h1', hacts', hpols'⟩

/-- Witness for C3: each rejected configuration evaluated concretely, plus a
successful construction with non-empty stored fields. -/
theorem mkPermission_validation_witness :
    (mkPermission "n" [] false none none [AuthzedAction.READ] [AllowAll]
      (DSArg.mem DecisionStrategy.UNANIMOUS)).isOk = false ∧
    (mkPermission "n" [PyClass.unmanaged 0] false none none [AuthzedAction.READ] [AllowAll]
      (DSArg.mem DecisionStrategy.UNANIMOUS)).isOk = false ∧
    (mkPermission "n" [PyClass.managed FeastType.featureView] false none none [] [AllowAll]
      (DSArg.mem DecisionStrategy.UNANIMOUS)).isOk = false ∧
    (mkPermission "n" [PyClass.managed FeastType.featureView] false none none
      [AuthzedAction.READ] [] (DSArg.mem DecisionStrategy.UNANIMOUS)).isOk = false ∧
    (mkPermission "n" [PyClass.managed FeastType.featureView] false none none
      [AuthzedAction.READ] [AllowAll] (DSArg.notMem 0)).isOk = false ∧
    (permOk.types ≠ [] ∧ permOk.actions ≠ [] ∧ permOk.policies ≠ []) :=
  ⟨(mkPermission_validation "n" [] false none none [AuthzedAction.READ] [AllowAll]
      (DSArg.mem DecisionStrategy.UNANIMOUS)).1 rfl,
   (mkPermission_validation "n" [PyClass.unmanaged 0] false none none [AuthzedAction.READ]
      [AllowAll] (DSArg.mem DecisionStrategy.UNANIMOUS)).2.1
      ⟨PyClass.unmanaged 0, by decide, rfl⟩,
   (mkPermission_validation "n" [PyClass.managed FeastType.featureView] false none none []
      [AllowAll] (DSArg.mem DecisionStrategy.UNANIMOUS)).2.2.1 rfl,
   (mkPermission_validation "n" [PyClass.managed FeastType.featureView] false none none
      [AuthzedAction.READ] [] (DSArg.mem DecisionStrategy.UNANIMOUS)).2.2.2.1 rfl,
   (mkPermission_validation "n" [PyClass.managed FeastType.featureView] false none none
      [AuthzedAction.READ] [AllowAll] (DSArg.notMem 0)).2.2.2.2.1 0 rfl,
   (let h := (mkPermission_validation "n" [PyClass.managed FeastType.featureView] false none
      none [AuthzedAction.READ] [AllowAll] (DSArg.mem DecisionStrategy.UNANIMOUS)).2.2.2.2.2
      permOk rfl
    ⟨h.2.2.2.1, h.2.2.2.2.1, h.2.2.2.2.2⟩)⟩

/-- The required-tags normalization exactly as claim C8 words it: trim every key
and every string value, leave non-string values untouched, `None` stays `None` —
for comparison with the normalization the source performs. -/
def trimRequiredTagsSpec : Option (List (String × PyVal)) → Option (List (String × PyVal))
  | some ts => some (ts.map (fun kv => (pyStrip kv.1, trimTagVal kv.2)))
  | none => none

/-- Counterexample to C8 as stated: constructing with the empty required-tags
mapping succeeds and stores `None`, while the trim normalization of the empty
mapping is the empty mapping itself, so the stored value differs from the claimed
normalized form. -/
theorem normalize_required_tags_cex :
    (mkPermission "n" [PyClass.managed FeastType.featureView] false none
        (some []) [AuthzedAction.READ] [AllowAll]
        (DSArg.mem DecisionStrategy.UNANIMOUS)).toOption.map Permission.required_tags
      = some none ∧
    trimRequiredTagsSpec (some []) = some [] ∧
    (mkPermission "n" [PyClass.managed FeastType.featureView] false none
        (some []) [AuthzedAction.READ] [AllowAll]
        (DSArg.mem DecisionStrategy.UNANIMOUS)).toOption.map Permission.required_tags
      ≠ some (trimRequiredTagsSpec (some [])) :=
  ⟨rfl, rfl, by decide⟩

/-- Claim C8 as amended: on a successful construction the stored name pattern is
the whitespace-trimmed input (`None` stays `None`); the stored required tags are
`None` when the input is `None` or the empty mapping, and otherwise the input
mapping with every key trimmed and every string value trimmed, non-string values
untouched. -/
theorem mkPermission_normalizes (name : String) (types : List PyClass) (ws : Bool)
    (np : Option String) (rt : Option (List (String × PyVal)))
    (acts : List AuthzedAction) (pols : List Policy) (ds : DSArg) (p : Permission)
    (h : mkPermission name types ws np rt acts pols ds = Except.ok p) :
    p.name_pattern = np.map pyStrip ∧
    (rt = none → p.required_tags = none) ∧
    (rt = some [] → p.required_tags = none) ∧
    (∀ ts, rt = some ts → ts ≠ [] →
      p.required_tags = some (ts.map (fun kv => (pyStrip kv.1, trimTagVal kv.2)))) := by
  unfold mkPermission at h
  repeat' split at h
  all_goals try exact Except.noConfusion h
  injection h with h2
  subst h2
  refine ⟨?_, ?_, ?_, ?_⟩
  · cases np <;> rfl
  · intro hrt
    subst hrt
    rfl
  · intro hrt
    subst hrt
    rfl
  · intro ts hrt hne
    subst hrt
    simp [normalize_required_tags, hne]

/-- Witness for the amended C8: a construction with whitespace around the pattern,
a key and a string value, and with one non-string value. -/
theorem mkPermission_normalizes_witness :
    pNorm.name_pattern = (some "  ab ").map pyStrip ∧
    pNorm.required_tags
      = some ([(" k ", PyVal.str " v "), ("j", PyVal.nonStr 0)].map
          (fun kv => (pyStrip kv.1, trimTagVal kv.2))) :=
  ⟨(mkPermission_normalizes "n" [PyClass.managed FeastType.featureView] false
      (some "  ab ") (some [(" k ", PyVal.str " v "), ("j", PyVal.nonStr 0)])
      [AuthzedAction.READ] [AllowAll] (DSArg.mem DecisionStrategy.UNANIMOUS) pNorm rfl).1,
   (mkPermission_normalizes "n" [PyClass.managed FeastType.featureView] false
      (some "  ab ") (some [(" k ", PyVal.str " v "), ("j", PyVal.nonStr 0)])
      [AuthzedAction.READ] [AllowAll] (DSArg.mem DecisionStrategy.UNANIMOUS) pNorm rfl).2.2.2
      [(" k ", PyVal.str " v "), ("j", PyVal.nonStr 0)] rfl (by decide)⟩

/-- Claim C2: `assert_permissions` returns exactly the given resource on allow and
a permission-denied error (a different constructor from not-found) on deny; it
never returns a different object. -/
theorem assert_permissions_spec (sm : SecurityManager) (gs : DecisionStrategy)
    (r : Resource) (acts : List AuthzedAction) :
    (∀ x, assert_permissions sm gs r acts = Except.ok x → x = r) ∧
    (resourceDecision sm gs (some r) acts = true →
      assert_permissions sm gs r acts = Except.ok r) ∧
    (resourceDecision sm gs (some r) acts = false →
      assert_permissions sm gs r acts
        = Except.error (SMError.permissionDeniedErr "Permission denied")) ∧
    (∀ m1 m2, SMError.permissionDeniedErr m1 ≠ SMError.notFoundErr m2) := by
  refine ⟨?_, ?_, ?_, ?_⟩
  · intro x hx
    unfold assert_permissions at hx
    split at hx
    · injection hx with h
      exact h.symm
    · exact Except.noConfusion hx
  · intro h
    simp [assert_permissions, h]
  · intro h
    simp [assert_permissions, h]
  · intro m1 m2 hc
    exact SMError.noConfusion hc

/-- Witness for C2: an allowing manager passes the resource through unchanged; a
manager with no permissions denies with the permission-denied error. -/
theorem assert_permissions_spec_witness :
    assert_permissions smAllow DecisionStrategy.UNANIMOUS resFV [AuthzedAction.READ]
      = Except.ok resFV ∧
    assert_permissions smEmpty DecisionStrategy.UNANIMOUS resFV [AuthzedAction.WRITE]
      = Except.error (SMError.permissionDeniedErr "Permission denied") :=
  ⟨(assert_permissions_spec smAllow DecisionStrategy.UNANIMOUS resFV
      [AuthzedAction.READ]).2.1 rfl,
   (assert_permissions_spec smEmpty DecisionStrategy.UNANIMOUS resFV
      [AuthzedAction.WRITE]).2.2.1 rfl⟩

end Feast
